import Mathlib

/-!
Shallow embedding of `src/static/js/htmx-modal.js` ("HTMX Modal Management
with SweetAlert2").  The script is a browser-side bridge: event handlers
that show/hide a Bootstrap modal and fire SweetAlert2 popups driven by
HTMX response headers.

Modelling choices:
* The relevant browser state is a record `DomState`: whether the modal
  element exists, the innerHTML of the content element (`none` when the
  element is absent), availability of the `bootstrap` and `Swal` globals,
  the `modalInstance` module variable, and the modal's visibility.
* Every operation is a total function `DomState → DomState × List Effect`
  (or returns just a `List Effect` when the source never mutates state);
  `Effect` records the observable calls: `console.log` / `console.error`
  output, `Swal.fire` parameter records, Bootstrap `show()` / `hide()`
  calls, `setTimeout` scheduling, and entry markers (`showInvoked`,
  `hideInvoked`, `clearInvoked`) tracing that a module function was
  entered, so "exactly one hide call" is statable.
* JavaScript string truthiness (`x || dflt`, where `""` and `null` are
  falsy) is `orElseStr`; JS object lookup with `|| dflt` is `lookupOr`.
-/

/-- The `CONFIG` object (lines 25-32 of the source). -/
structure Config where
  modalId : String
  modalContentId : String
  modalBackdrop : String
  modalKeyboard : Bool
  successAutoClose : Nat
  enableLogging : Bool
  deriving DecidableEq

def CONFIG : Config :=
  { modalId := "global-modal"
  , modalContentId := "modal-content"
  , modalBackdrop := "static"
  , modalKeyboard := false
  , successAutoClose := 3000
  , enableLogging := true }

/-- The options record passed to `new bootstrap.Modal(...)`. -/
structure ModalInstance where
  backdrop : String
  keyboard : Bool
  deriving DecidableEq

/-- Parameter record of a `Swal.fire({...})` call in `showSweetAlert`. -/
structure SwalParams where
  icon : String
  title : String
  text : String
  confirmButtonText : String
  confirmButtonColor : String
  timer : Option Nat
  timerProgressBar : Bool
  deriving DecidableEq

/-- A callback handed to `setTimeout` by the `htmx:beforeSwap` handler. -/
inductive Delayed where
  | hideCall
  | alertCall (message : String) (ty : String) (title : Option String)
  deriving DecidableEq

/-- Observable side effects of the module's functions. -/
inductive Effect where
  | logMsg (line : String)
  | logErr (line : String)
  | consoleLog (line : String)
  | swalFire (p : SwalParams)
  | bsShow
  | bsHide
  | schedule (delayMs : Nat) (d : Delayed)
  | showInvoked
  | hideInvoked
  | clearInvoked
  deriving DecidableEq

/-- Browser-visible state the module reads and writes. -/
structure DomState where
  modalElement : Bool
  content : Option String
  bootstrapAvailable : Bool
  swalAvailable : Bool
  modalInstance : Option ModalInstance
  modalVisible : Bool
  deriving DecidableEq

/-- JS `a || b` on a nullable string: `null` and `""` are falsy. -/
def orElseStr (a : Option String) (b : String) : String :=
  match a with
  | some s => if s = "" then b else s
  | none => b

/-- JS `obj[k] || dflt` for an object with non-empty string values. -/
def lookupOr : List (String × String) → String → String → String
  | [], _, dflt => dflt
  | (k, v) :: rest, key, dflt => if key = k then v else lookupOr rest key dflt

/-- JS `String.prototype.toUpperCase` on ASCII identifiers. -/
def toUpperStr (s : String) : String := s.map Char.toUpper

/-- The `log` helper: emits only when `CONFIG.enableLogging` (lines 42-50). -/
def log (message : String) : List Effect :=
  if CONFIG.enableLogging then [Effect.logMsg ("[HTMX Modal] " ++ message)] else []

/-- The `logError` helper: always emits (lines 55-61). -/
def logError (message : String) : List Effect :=
  [Effect.logErr ("[HTMX Modal] " ++ message)]

/-- The `initModal` function (lines 74-86): constructs the modal instance when
the element and Bootstrap are present, else logs an error; returns the JS
boolean result alongside the state and effects. -/
def initModal (s : DomState) : DomState × List Effect × Bool :=
  if s.modalElement && s.bootstrapAvailable then
    let inst : ModalInstance :=
      { backdrop := CONFIG.modalBackdrop, keyboard := CONFIG.modalKeyboard }
    ({ s with modalInstance := some inst }, log "Modal instance initialized", true)
  else
    (s, logError "Failed to initialize modal - element or Bootstrap not found", false)

/-- The `showModal` function (lines 91-98). -/
def showModal (s : DomState) : DomState × List Effect :=
  match s.modalInstance with
  | some _ =>
      ({ s with modalVisible := true }, [Effect.showInvoked, Effect.bsShow] ++ log "Modal shown")
  | none =>
      (s, [Effect.showInvoked] ++ logError "Cannot show modal - instance not initialized")

/-- The `hideModal` function (lines 103-108): note there is no `else` branch,
so nothing at all happens (not even a log) when the instance is `null`. -/
def hideModal (s : DomState) : DomState × List Effect :=
  match s.modalInstance with
  | some _ =>
      ({ s with modalVisible := false }, [Effect.hideInvoked, Effect.bsHide] ++ log "Modal hidden")
  | none =>
      (s, [Effect.hideInvoked])

/-- The `clearModalContent` function (lines 113-119). -/
def clearModalContent (s : DomState) : DomState × List Effect :=
  match s.content with
  | some _ =>
      ({ s with content := some "" }, [Effect.clearInvoked] ++ log "Modal content cleared")
  | none =>
      (s, [Effect.clearInvoked])

/-- The spinner markup assigned by `showModalLoading` (lines 127-134). -/
def loadingHtml : String :=
  "\n                <div class=\"modal-body text-center py-5\">\n                    <div class=\"spinner-border text-primary\" role=\"status\" style=\"width: 3rem; height: 3rem;\">\n                        <span class=\"visually-hidden\">Loading...</span>\n                    </div>\n                    <p class=\"mt-3 text-muted\">Loading...</p>\n                </div>\n            "

/-- The `showModalLoading` function (lines 124-136). -/
def showModalLoading (s : DomState) : DomState × List Effect :=
  match s.content with
  | some _ => ({ s with content := some loadingHtml }, [])
  | none => (s, [])

/-- The `iconMap` object (lines 161-167). -/
def iconMap : List (String × String) :=
  [("success", "success"), ("error", "error"), ("warning", "warning"),
   ("info", "info"), ("question", "question")]

/-- The `defaultTitles` object (lines 170-176). -/
def defaultTitles : List (String × String) :=
  [("success", "Success!"), ("error", "Error!"), ("warning", "Warning!"),
   ("info", "Information"), ("question", "Are you sure?")]

/-- The `buttonColors` object (lines 179-185). -/
def buttonColors : List (String × String) :=
  [("success", "#28a745"), ("error", "#dc3545"), ("warning", "#ffc107"),
   ("info", "#17a2b8"), ("question", "#6c757d")]

/-- The `showSweetAlert` function (lines 150-207).  It never mutates the
modelled state, so it returns only its effects.  `ty` and `ti` are the
possibly-null `type` and `title` parameters. -/
def showSweetAlert (s : DomState) (message : String) (ty ti : Option String) : List Effect :=
  let t := orElseStr ty "success"
  if s.swalAvailable = false then
    logError "SweetAlert2 not loaded - falling back to console" ++
      [Effect.consoleLog ("[" ++ toUpperStr t ++ "] " ++ ti.getD "" ++ ": " ++ message)]
  else
    [Effect.swalFire
      { icon := lookupOr iconMap t "info"
      , title := orElseStr ti (lookupOr defaultTitles t "Notification")
      , text := message
      , confirmButtonText := "OK"
      , confirmButtonColor := lookupOr buttonColors t "#17a2b8"
      , timer := if t = "success" then some CONFIG.successAutoClose else none
      , timerProgressBar := decide (t = "success") }] ++
    log ("SweetAlert shown: " ++ t ++ " - " ++ message)

/-- Response-header bag read by the `htmx:beforeSwap` handler. -/
structure Headers where
  alertMessage : Option String
  alertType : Option String
  alertTitle : Option String
  closeModal : Option String
  deriving DecidableEq

/-- The `htmx:beforeSwap` handler (lines 271-291): schedules a delayed alert
when the message header is truthy, and a delayed `hideModal` when the
`HX-Close-Modal` header is exactly `"true"`. -/
def onBeforeSwap (s : DomState) (h : Headers) : DomState × List Effect :=
  let alertEffects :=
    match h.alertMessage with
    | some m =>
        if m = "" then []
        else [Effect.schedule 200 (Delayed.alertCall m (orElseStr h.alertType "success") h.alertTitle)]
    | none => []
  let closeEffects :=
    if h.closeModal = some "true" then [Effect.schedule 100 Delayed.hideCall] else []
  (s, alertEffects ++ closeEffects)

/-- Firing a `setTimeout` callback scheduled by `onBeforeSwap`. -/
def runDelayed (s : DomState) : Delayed → DomState × List Effect
  | Delayed.hideCall => hideModal s
  | Delayed.alertCall m ty ti => (s, showSweetAlert s m (some ty) ti)

/-- The `htmx:responseError` handler (lines 297-307). -/
def onResponseError (s : DomState) : DomState × List Effect :=
  let e1 := logError "HTMX response error"
  let e2 := showSweetAlert s
    "An error occurred while processing your request. Please try again."
    (some "error") (some "Request Failed")
  let r := hideModal s
  (r.1, e1 ++ e2 ++ r.2)

/-- The `htmx:sendError` handler (lines 313-321): no `hideModal` call. -/
def onSendError (s : DomState) : DomState × List Effect :=
  (s, logError "HTMX network error" ++
    showSweetAlert s
      "Unable to connect to the server. Please check your internet connection and try again."
      (some "error") (some "Connection Error"))

/-- The `hidden.bs.modal` listener (lines 368-372): attached, and hence able
to fire, only when the modal element exists. -/
def onHiddenBsModal (s : DomState) : DomState × List Effect :=
  if s.modalElement then clearModalContent s else (s, [])

/-- First `Swal.fire` parameter record in an effect list, if any. -/
def firedParams : List Effect → Option SwalParams
  | [] => none
  | Effect.swalFire p :: _ => some p
  | _ :: es => firedParams es

/-- All `setTimeout` registrations in an effect list, as (delay, callback). -/
def schedules : List Effect → List (Nat × Delayed)
  | [] => []
  | Effect.schedule d a :: es => (d, a) :: schedules es
  | _ :: es => schedules es

/-- Recognizer for the scheduled 100 ms `hideModal` callback. -/
def isHideSchedule : Effect → Bool
  | Effect.schedule d Delayed.hideCall => d == 100
  | _ => false

/-- Recognizer for an entry into `hideModal`. -/
def isHideInvokedEffect : Effect → Bool
  | Effect.hideInvoked => true
  | _ => false

/-- Recognizer for a `console.error` line. -/
def isLogErrEffect : Effect → Bool
  | Effect.logErr _ => true
  | _ => false

/-- Recognizer for a `Swal.fire` with the error icon and given text/title. -/
def isErrNotifFor (msg ti : String) : Effect → Bool
  | Effect.swalFire p => decide (p.icon = "error" ∧ p.text = msg ∧ p.title = ti)
  | _ => false

/-- The (icon, title, color) triple fired for message `m` and kind `k` with
no custom title, when SweetAlert2 is available. -/
def alertTriple (s : DomState) (m k : String) : Option (String × String × String) :=
  (firedParams (showSweetAlert s m (some k) none)).map
    (fun p => (p.icon, p.title, p.confirmButtonColor))

/-- A concrete page state: everything loaded, modal not yet initialized. -/
def swalState : DomState :=
  { modalElement := true, content := some "", bootstrapAvailable := true,
    swalAvailable := true, modalInstance := none, modalVisible := false }

/-- A concrete page state in which SweetAlert2 failed to load. -/
def noSwalState : DomState :=
  { modalElement := true, content := some "", bootstrapAvailable := true,
    swalAvailable := false, modalInstance := none, modalVisible := false }

/-- A concrete page state with the modal initialized and visible. -/
def visibleState : DomState :=
  { modalElement := true, content := some "<p>form</p>", bootstrapAvailable := true,
    swalAvailable := true,
    modalInstance := some { backdrop := "static", keyboard := false },
    modalVisible := true }

/-- C1 counterexample: with SweetAlert2 available, message "oops", the
unrecognized kind "bogus" and no custom title, `showSweetAlert` fires the
info icon and the info color, but the title is the generic fallback
"Notification", which is not the info kind's default title "Information"
(the value of `defaultTitles` at "info") — so the unrecognized-kind clause
of the claim, which demands the full info triple, is false. -/
theorem alert_unrecognized_title_counterexample :
    alertTriple swalState "oops" "bogus" = some ("info", "Notification", "#17a2b8") ∧
    lookupOr defaultTitles "info" "Notification" = "Information" ∧
    alertTriple swalState "oops" "bogus" ≠
      some ("info", lookupOr defaultTitles "info" "Notification", "#17a2b8") := by
  decide

/-- C1 (amended): with SweetAlert2 available and no custom title, each of the
five recognized kinds selects its own fixed icon/default-title/color triple
(success→green, error→red, warning→amber, info→teal, question→gray); a
non-empty unrecognized kind selects the info icon and the info color, but the
generic fallback title "Notification" rather than the info default title. -/
theorem alert_kind_triples (s : DomState) (m t : String) (hs : s.swalAvailable = true)
    (ht : t ∉ (["success", "error", "warning", "info", "question"] : List String))
    (hne : t ≠ "") :
    alertTriple s m "success" = some ("success", "Success!", "#28a745") ∧
    alertTriple s m "error" = some ("error", "Error!", "#dc3545") ∧
    alertTriple s m "warning" = some ("warning", "Warning!", "#ffc107") ∧
    alertTriple s m "info" = some ("info", "Information", "#17a2b8") ∧
    alertTriple s m "question" = some ("question", "Are you sure?", "#6c757d") ∧
    alertTriple s m t = some ("info", "Notification", "#17a2b8") := by
  simp only [List.mem_cons, List.not_mem_nil, or_false, not_or] at ht
  obtain ⟨h1, h2, h3, h4, h5⟩ := ht
  refine ⟨?_, ?_, ?_, ?_, ?_, ?_⟩ <;>
    simp [alertTriple, showSweetAlert, firedParams, orElseStr, lookupOr, log, CONFIG,
      hs, hne, h1, h2, h3, h4, h5]

/-- C1 witness: the amended theorem applied at a concrete state and the
concrete unrecognized kind "bogus". -/
theorem alert_kind_triples_witness :
    swalState.swalAvailable = true ∧
    alertTriple swalState "hello" "bogus" = some ("info", "Notification", "#17a2b8") :=
  ⟨rfl, (alert_kind_triples swalState "hello" "bogus" rfl (by decide) (by decide)).2.2.2.2.2⟩

/-- C2 counterexample: with the modal instance still `null`, `hideModal`
performs no DOM mutation but also emits no error log at all (the source has
no `else` branch), so the claim that both `show()` and `hide()` produce a
logged error before initialization is false for `hide()`. -/
theorem hide_uninitialized_silent_counterexample :
    swalState.modalInstance = none ∧
    (hideModal swalState).1 = swalState ∧
    (hideModal swalState).2.countP isLogErrEffect = 0 ∧
    (hideModal swalState).2 = [Effect.hideInvoked] := by
  decide

/-- C2 (amended): before `initModal` has succeeded (modal instance `null`),
`showModal` logs an error and performs no DOM mutation, while `hideModal`
performs no DOM mutation and logs nothing at all; both are total functions,
so neither throws. -/
theorem show_hide_uninitialized (s : DomState) (h : s.modalInstance = none) :
    showModal s = (s, [Effect.showInvoked,
      Effect.logErr "[HTMX Modal] Cannot show modal - instance not initialized"]) ∧
    hideModal s = (s, [Effect.hideInvoked]) := by
  simp [showModal, hideModal, h, logError]

/-- C2 witness: the amended theorem applied at a concrete uninitialized
state. -/
theorem show_hide_uninitialized_witness :
    swalState.modalInstance = none ∧
    showModal swalState = (swalState, [Effect.showInvoked,
      Effect.logErr "[HTMX Modal] Cannot show modal - instance not initialized"]) ∧
    hideModal swalState = (swalState, [Effect.hideInvoked]) :=
  ⟨rfl, (show_hide_uninitialized swalState rfl).1, (show_hide_uninitialized swalState rfl).2⟩

/-- C3: with SweetAlert2 available, every `showSweetAlert` call fires exactly
one alert; when the effective kind (after the `type || 'success'` default)
is "success" the alert carries the auto-dismiss timer of exactly
`CONFIG.successAutoClose` = 3000 ms and the countdown progress bar, and for
every other effective kind it carries no timer and no progress bar. -/
theorem success_auto_close_timer (s : DomState) (m : String) (ty ti : Option String)
    (hs : s.swalAvailable = true) :
    CONFIG.successAutoClose = 3000 ∧
    ∃ p, firedParams (showSweetAlert s m ty ti) = some p ∧
      (orElseStr ty "success" = "success" →
        p.timer = some CONFIG.successAutoClose ∧ p.timerProgressBar = true) ∧
      (orElseStr ty "success" ≠ "success" →
        p.timer = none ∧ p.timerProgressBar = false) := by
  refine ⟨rfl, ?_⟩
  by_cases ht : orElseStr ty "success" = "success" <;>
    simp [showSweetAlert, firedParams, log, CONFIG, hs, ht]

/-- C3 witness: the theorem applied at a concrete state with a concrete
non-success kind. -/
theorem success_auto_close_timer_witness :
    swalState.swalAvailable = true ∧
    (CONFIG.successAutoClose = 3000 ∧
      ∃ p, firedParams (showSweetAlert swalState "saved" (some "warning") none) = some p ∧
        (orElseStr (some "warning") "success" = "success" →
          p.timer = some CONFIG.successAutoClose ∧ p.timerProgressBar = true) ∧
        (orElseStr (some "warning") "success" ≠ "success" →
          p.timer = none ∧ p.timerProgressBar = false)) :=
  ⟨rfl, success_auto_close_timer swalState "saved" (some "warning") none rfl⟩

/-- C4: the `htmx:beforeSwap` handler schedules the delayed (100 ms)
`hideModal` exactly once when the `HX-Close-Modal` header is the exact
literal "true", and never otherwise (missing header or any other value). -/
theorem close_modal_header_exact (s : DomState) (h : Headers) :
    (onBeforeSwap s h).2.countP isHideSchedule =
      (if h.closeModal = some "true" then 1 else 0) := by
  obtain ⟨am, aty, ati, cm⟩ := h
  rcases am with _ | m
  · by_cases hc : cm = some "true" <;> simp [onBeforeSwap, isHideSchedule, hc]
  · by_cases hm : m = "" <;> by_cases hc : cm = some "true" <;>
      simp [onBeforeSwap, isHideSchedule, hm, hc]

/-- C5: when the response carries a non-empty `HX-Alert-Message` and no
`HX-Alert-Type`, the `htmx:beforeSwap` handler schedules the presenter at
200 ms with that message and kind "success"; and when `HX-Alert-Title` is
also absent, firing that scheduled call (with SweetAlert2 available)
presents a success alert titled with the default success title. -/
theorem alert_message_defaults (s s2 : DomState) (h : Headers) (m : String)
    (hm : h.alertMessage = some m) (hne : m ≠ "") (hty : h.alertType = none)
    (hti : h.alertTitle = none) (hs : s2.swalAvailable = true) :
    (200, Delayed.alertCall m "success" none) ∈ schedules (onBeforeSwap s h).2 ∧
    ∃ p, firedParams (runDelayed s2 (Delayed.alertCall m "success" none)).2 = some p ∧
      p.icon = "success" ∧ p.title = "Success!" ∧ p.text = m := by
  constructor
  · simp [onBeforeSwap, schedules, hm, hne, hty, hti, orElseStr]
  · simp [runDelayed, showSweetAlert, firedParams, orElseStr, lookupOr,
      log, CONFIG, hs]

/-- C5 witness: the theorem applied at concrete states and a concrete header
bag carrying only the message "Saved". -/
theorem alert_message_defaults_witness :
    (Headers.mk (some "Saved") none none none).alertMessage = some "Saved" ∧
    swalState.swalAvailable = true ∧
    ((200, Delayed.alertCall "Saved" "success" none) ∈
        schedules (onBeforeSwap swalState (Headers.mk (some "Saved") none none none)).2 ∧
      ∃ p, firedParams (runDelayed swalState (Delayed.alertCall "Saved" "success" none)).2
          = some p ∧ p.icon = "success" ∧ p.title = "Success!" ∧ p.text = "Saved") :=
  ⟨rfl, rfl, alert_message_defaults swalState swalState
    (Headers.mk (some "Saved") none none none) "Saved" rfl (by decide) rfl rfl rfl⟩

/-- C6: with SweetAlert2 available, the `htmx:responseError` handler emits
exactly one error alert, with the fixed request-failure message and the
title "Request Failed", and enters `hideModal` exactly once — whatever the
modal's state beforehand. -/
theorem response_error_effects (s : DomState) (hs : s.swalAvailable = true) :
    (onResponseError s).2.countP
      (isErrNotifFor "An error occurred while processing your request. Please try again."
        "Request Failed") = 1 ∧
    (onResponseError s).2.countP isHideInvokedEffect = 1 := by
  rcases hmi : s.modalInstance with _ | inst <;>
    simp [onResponseError, showSweetAlert, hideModal, logError, log, CONFIG,
      firedParams, orElseStr, lookupOr, isErrNotifFor, isHideInvokedEffect, hs, hmi]

/-- C6 witness: the theorem applied at a concrete visible modal state. -/
theorem response_error_effects_witness :
    visibleState.swalAvailable = true ∧
    ((onResponseError visibleState).2.countP
      (isErrNotifFor "An error occurred while processing your request. Please try again."
        "Request Failed") = 1 ∧
    (onResponseError visibleState).2.countP isHideInvokedEffect = 1) :=
  ⟨rfl, response_error_effects visibleState rfl⟩

/-- C7: with SweetAlert2 available, the `htmx:sendError` handler emits
exactly one error alert, with the fixed connection-failure message and the
title "Connection Error", never enters `hideModal`, and leaves the whole
modelled state — in particular the modal's visibility — unchanged. -/
theorem send_error_no_hide (s : DomState) (hs : s.swalAvailable = true) :
    (onSendError s).2.countP
      (isErrNotifFor
        "Unable to connect to the server. Please check your internet connection and try again."
        "Connection Error") = 1 ∧
    (onSendError s).2.countP isHideInvokedEffect = 0 ∧
    (onSendError s).1 = s ∧ (onSendError s).1.modalVisible = s.modalVisible := by
  refine ⟨?_, ?_, rfl, rfl⟩ <;>
    simp [onSendError, showSweetAlert, logError, log, CONFIG, orElseStr, lookupOr,
      isErrNotifFor, isHideInvokedEffect, hs]

/-- C7 witness: the theorem applied at a concrete visible modal state. -/
theorem send_error_no_hide_witness :
    visibleState.swalAvailable = true ∧
    ((onSendError visibleState).2.countP
      (isErrNotifFor
        "Unable to connect to the server. Please check your internet connection and try again."
        "Connection Error") = 1 ∧
    (onSendError visibleState).2.countP isHideInvokedEffect = 0 ∧
    (onSendError visibleState).1 = visibleState ∧
    (onSendError visibleState).1.modalVisible = visibleState.modalVisible) :=
  ⟨rfl, send_error_no_hide visibleState rfl⟩

/-- C8: when SweetAlert2 is unavailable, every `showSweetAlert` call emits
the not-loaded error log followed by the console fallback line
"[KIND] title: message" (kind upper-cased after the `type || 'success'`
default, absent title rendered empty), fires no alert, and — being a total
function — returns without throwing. -/
theorem swal_fallback_console (s : DomState) (m : String) (ty ti : Option String)
    (hs : s.swalAvailable = false) :
    showSweetAlert s m ty ti =
      [Effect.logErr "[HTMX Modal] SweetAlert2 not loaded - falling back to console",
       Effect.consoleLog
         ("[" ++ toUpperStr (orElseStr ty "success") ++ "] " ++ ti.getD "" ++ ": " ++ m)] ∧
    firedParams (showSweetAlert s m ty ti) = none := by
  simp [showSweetAlert, firedParams, logError, hs]

/-- C8 witness: the theorem applied at a concrete state without SweetAlert2. -/
theorem swal_fallback_console_witness :
    noSwalState.swalAvailable = false ∧
    (showSweetAlert noSwalState "boom" (some "error") none =
      [Effect.logErr "[HTMX Modal] SweetAlert2 not loaded - falling back to console",
       Effect.consoleLog
         ("[" ++ toUpperStr (orElseStr (some "error") "success") ++ "] " ++
           (none : Option String).getD "" ++ ": " ++ "boom")] ∧
    firedParams (showSweetAlert noSwalState "boom" (some "error") none) = none) :=
  ⟨rfl, swal_fallback_console noSwalState "boom" (some "error") none rfl⟩

/-- C9: in every state in which the modal element exists and the content
element exists (whatever it currently holds), the completion of the hide
transition (`hidden.bs.modal`) enters `clearModalContent` and leaves the
content region empty. -/
theorem hidden_transition_clears_content (s : DomState) (c : String)
    (hme : s.modalElement = true) (hc : s.content = some c) :
    (onHiddenBsModal s).1.content = some "" ∧
    Effect.clearInvoked ∈ (onHiddenBsModal s).2 := by
  simp [onHiddenBsModal, clearModalContent, log, CONFIG, hme, hc]

/-- C9 witness: the theorem applied at a concrete visible modal state with
stale content. -/
theorem hidden_transition_clears_content_witness :
    visibleState.modalElement = true ∧ visibleState.content = some "<p>form</p>" ∧
    ((onHiddenBsModal visibleState).1.content = some "" ∧
      Effect.clearInvoked ∈ (onHiddenBsModal visibleState).2) :=
  ⟨rfl, rfl, hidden_transition_clears_content visibleState "<p>form</p>" rfl rfl⟩

/-- C10: `clearModalContent` and `showModalLoading` read only the content
element: their result and effects are unchanged under any replacement of the
modal instance (including `null`); when the content element is absent they
leave the state untouched and emit nothing beyond the entry marker; when it
exists they set it to empty, respectively to the spinner markup. -/
theorem content_ops_independent_of_instance (s : DomState) (i : Option ModalInstance) :
    ((clearModalContent { s with modalInstance := i }).1.content
        = (clearModalContent s).1.content ∧
      (clearModalContent { s with modalInstance := i }).2 = (clearModalContent s).2) ∧
    ((showModalLoading { s with modalInstance := i }).1.content
        = (showModalLoading s).1.content ∧
      (showModalLoading { s with modalInstance := i }).2 = (showModalLoading s).2) ∧
    (s.content = none →
      clearModalContent s = (s, [Effect.clearInvoked]) ∧ showModalLoading s = (s, [])) ∧
    (∀ c, s.content = some c →
      (clearModalContent s).1.content = some "" ∧
      (showModalLoading s).1.content = some loadingHtml) := by
  rcases hc : s.content with _ | c <;>
    simp [clearModalContent, showModalLoading, log, CONFIG, hc]

/-- The concrete modal instance used in the C10 witness. -/
def staticInstance : ModalInstance := { backdrop := "static", keyboard := false }

/-- C10 witness: the theorem applied at a concrete state, discharging the
content-present clause at the concrete content. -/
theorem content_ops_independent_of_instance_witness :
    swalState.content = some "" ∧
    ((clearModalContent { swalState with modalInstance := some staticInstance }).1.content
      = (clearModalContent swalState).1.content ∧
    (clearModalContent swalState).1.content = some "" ∧
    (showModalLoading swalState).1.content = some loadingHtml) :=
  ⟨rfl,
    (content_ops_independent_of_instance swalState (some staticInstance)).1.1,
    ((content_ops_independent_of_instance swalState none).2.2.2 "" rfl).1,
    ((content_ops_independent_of_instance swalState none).2.2.2 "" rfl).2⟩
